import Mathlib

/-!
# Verification of the photo render/pagination pipeline (`love-website`)

Shallow embedding of the client-side "Performance Optimizer" pipeline
(`src/performance_optimization.js`) together with the logging collaborator
(`src/logger.js`) that it reports failures through.

Modelling conventions:

* The browser DOM is represented by the fields of `OptState` that the code
  reads and writes: the `photoWall` container is the list `wall` of rendered
  children that carry photo content (photo items or the empty-state
  placeholder), and the loading indicator / "load more" button are tracked as
  `Option Bool` (`none` = the element is not in the document, `some b` =
  present with display on/off).  `wallPresent` models whether
  `document.getElementById('photoWall')` finds the container.
* A network fetch together with its eventual completion is a `FetchResult`
  argument: the single-threaded event-loop code awaits exactly one response
  per issued request, so one invocation of `loadPhotosPaginated` is a pure
  function of the state and the response.  `netRequests` counts listing and
  preload requests issued.
* JavaScript string formatting of error objects is abstracted into
  `fetchErrorMessage`; the claims only depend on how many log entries are
  produced, at which level, and through which path.
-/

/-- One entry of the logger's ring buffer (`src/logger.js`, `addLog`). -/
structure LogEntry where
  level : Nat
  category : String
  message : String
deriving DecidableEq, Repr

/-- State of the `Logger` class: current level, buffered entries, capacity. -/
structure LoggerState where
  currentLevel : Nat
  logs : List LogEntry
  maxLogs : Nat
deriving DecidableEq, Repr

namespace Logger

/-- `Logger.addLog`: push the entry, then drop the oldest entry when the
buffer exceeds `maxLogs` (timestamp omitted: no claim mentions it). -/
def addLog (lg : LoggerState) (level : Nat) (category message : String) :
    LoggerState :=
  let logs := lg.logs ++ [⟨level, category, message⟩]
  { lg with logs := if lg.maxLogs < logs.length then logs.drop 1 else logs }

/-- `Logger.error`: records at level `ERROR = 3` when enabled. -/
def error (lg : LoggerState) (message category : String) : LoggerState :=
  if lg.currentLevel ≤ 3 then addLog lg 3 category message else lg

end Logger

/-- `console.error` after `Logger.interceptConsole` has rebound it
(`src/logger.js` lines 41-44): the interception forwards the joined
arguments to `logger.error` with the default category `"ERROR"` before
calling the original console method (which is outside the logger state). -/
def consoleError (lg : LoggerState) (message : String) : LoggerState :=
  Logger.error lg message "ERROR"

/-- `console.log` after interception forwards to `logger.debug`
(level `DEBUG = 0`, default category `"DEBUG"`). -/
def consoleLog (lg : LoggerState) (message : String) : LoggerState :=
  if lg.currentLevel ≤ 0 then Logger.addLog lg 0 "DEBUG" message else lg

/-- One photo record of a listing response (spec §3 `PhotoRecord`). -/
structure PhotoRecord where
  id : String
  type : String
  message : Option String
  date : String
deriving DecidableEq, Repr

/-- Modelled from the spec: `SERVER_CONFIG.baseUrl`, the configured base
endpoint.  It is declared in a configuration file that is not part of the
sources at hand; its concrete value is irrelevant to every claim. -/
def serverBaseUrl : String := "SERVER_CONFIG.baseUrl"

/-- Thumbnail endpoint for a photo id (`createPhotoItem`, line 151). -/
def thumbnailUrl (id : String) : String :=
  serverBaseUrl ++ "/api/photos/" ++ id ++ "/thumbnail"

/-- Full-resource endpoint for a photo id (`createPhotoItem`, line 152). -/
def fullUrl (id : String) : String :=
  serverBaseUrl ++ "/api/photos/" ++ id ++ "/data"

/-- The `div.photo-item` element built by `createPhotoItem`: its id, whether
it is the video variant, the deferred-source (`data-src`) and full-resource
(`data-full`) attributes, caption and date. -/
structure PhotoElem where
  id : String
  isVideo : Bool
  dataSrc : Option String
  dataFull : String
  caption : String
  date : String
deriving DecidableEq, Repr

/-- `PerformanceOptimizer.createPhotoItem` (lines 145-177): video records
get a poster plus play indicator and no deferred image; image records get a
`data-src` thumbnail attribute. -/
def createPhotoItem (photo : PhotoRecord) : PhotoElem :=
  if photo.type = "video" then
    { id := photo.id, isVideo := true, dataSrc := none
      dataFull := fullUrl photo.id
      caption := photo.message.getD "", date := photo.date }
  else
    { id := photo.id, isVideo := false, dataSrc := some (thumbnailUrl photo.id)
      dataFull := fullUrl photo.id
      caption := photo.message.getD "", date := photo.date }

/-- A photo-content child of the `photoWall` container: either a rendered
photo item or the empty-state placeholder div. -/
inductive WallElem
  | photoItem (e : PhotoElem)
  | emptyState
deriving DecidableEq, Repr

/-- Number of photo elements (`div.photo-item`) among the container's
photo-content children. -/
def photoCount (wall : List WallElem) : Nat :=
  (wall.filter fun e => match e with | .photoItem _ => true | .emptyState => false).length

/-- The state read and written by the `PerformanceOptimizer` pipeline:
the optimizer's own fields (constructor, lines 5-12), the global `photos`
array, the DOM pieces it touches, the logger, and the count of listing /
preload network requests issued so far. -/
structure OptState where
  currentPage : Nat
  perPage : Nat
  isLoading : Bool
  hasMore : Bool
  loadedPhotos : List String
  photos : List PhotoRecord
  wallPresent : Bool
  wall : List WallElem
  indicator : Option Bool
  loadMoreBtn : Option Bool
  logger : LoggerState
  netRequests : Nat
deriving DecidableEq, Repr

/-- The state right after `new PerformanceOptimizer()` and `new Logger()`
on a fresh page with the container mounted, no saved log level, and no
records yet. -/
def initialOptState : OptState :=
  { currentPage := 1, perPage := 20, isLoading := false, hasMore := true
    loadedPhotos := [], photos := [], wallPresent := true, wall := []
    indicator := none, loadMoreBtn := none
    logger := { currentLevel := 0, logs := [], maxLogs := 500 }
    netRequests := 0 }

/-- Outcome of one listing fetch: the network layer rejected, the response
had a non-success status (`!response.ok`, thrown and caught), or a parsed
body with the record list and the `has_more` flag. -/
inductive FetchResult
  | networkError
  | httpError
  | ok (photos : List PhotoRecord) (hasMore : Bool)
deriving DecidableEq, Repr

/-- The stringified error the catch block sees (`error.message` for the
thrown non-success error, the rejection message otherwise); its exact text
matters to no claim. -/
def fetchErrorMessage : FetchResult → String
  | .networkError => "Failed to fetch"
  | .httpError => "加载照片失败"
  | .ok _ _ => ""

/-- `showLoadingIndicator` (lines 180-190): reuse the indicator if it is in
the document, otherwise create it and attach it to `photoWall` when the
container exists (without the container the created node stays detached and
unreachable, so the document state is unchanged); finally display it. -/
def showLoadingIndicator (st : OptState) : OptState :=
  { st with indicator :=
      match st.indicator, st.wallPresent with
      | some _, _ => some true
      | none, true => some true
      | none, false => none }

/-- `hideLoadingIndicator` (lines 193-198): no-op when the indicator is not
in the document, otherwise set its display to none. -/
def hideLoadingIndicator (st : OptState) : OptState :=
  { st with indicator :=
      match st.indicator with
      | some _ => some false
      | none => none }

/-- `updateLoadMoreButton` (lines 201-224): when `hasMore`, create the
button if absent (attached only when the container exists; detached
creations stay outside the document) and display it; when `hasMore` is
false, hide it if it exists. -/
def updateLoadMoreButton (st : OptState) : OptState :=
  { st with loadMoreBtn :=
      if st.hasMore then
        match st.loadMoreBtn, st.wallPresent with
        | some _, _ => some true
        | none, true => some true
        | none, false => none
      else
        match st.loadMoreBtn with
        | some _ => some false
        | none => none }

/-- `renderPhotosOptimized` (lines 109-142): no-op without the container.
With `append = false` the code first clears `photoWall.innerHTML`, which
also removes the indicator and the "load more" button since they are
children of the container; the clearing is folded here into each of the two
non-append branches.  An empty list without append renders the empty-state
placeholder; otherwise one `photo-item` per record, in input order, is
appended after whatever content survived the clearing step. -/
def renderPhotosOptimized (st : OptState) (photosList : List PhotoRecord)
    (append : Bool) : OptState :=
  if st.wallPresent then
    if photosList.length = 0 ∧ append = false then
      { st with wall := [WallElem.emptyState], indicator := none, loadMoreBtn := none }
    else if append then
      { st with wall :=
          st.wall ++ photosList.map (fun p => WallElem.photoItem (createPhotoItem p)) }
    else
      { st with wall := photosList.map (fun p => WallElem.photoItem (createPhotoItem p))
                indicator := none, loadMoreBtn := none }
  else st

/-- `loadPhotosPaginated` (lines 69-106): drop the call when a fetch is in
flight; otherwise set the in-flight flag, show the loading affordance and
issue the request.  On success: replace or extend the global `photos`,
take `hasMore` from the response, set `currentPage` to the requested page,
render the returned records and refresh the "load more" button.  On any
failure: report through the (intercepted) `console.error` and then through
`logger.error` with category `PERFORMANCE`.  The `finally` block clears the
in-flight flag and hides the loading affordance on every exit path. -/
def loadPhotosPaginated (st : OptState) (page : Nat) (append : Bool)
    (resp : FetchResult) : OptState :=
  if st.isLoading then st
  else
    let st1 := showLoadingIndicator { st with isLoading := true }
    let st2 := { st1 with netRequests := st1.netRequests + 1 }
    let st3 :=
      match resp with
      | .ok phs hm =>
        let stp := { st2 with
          photos := if append then st2.photos ++ phs else phs
          hasMore := hm, currentPage := page }
        updateLoadMoreButton (renderPhotosOptimized stp phs append)
      | e =>
        let m := fetchErrorMessage e
        let lg1 := consoleError st2.logger ("分页加载失败: " ++ m)
        let lg2 := Logger.error lg1 ("分页加载失败: " ++ m) "PERFORMANCE"
        { st2 with logger := lg2 }
    hideLoadingIndicator { st3 with isLoading := false }

/-- `preloadNextPage` (lines 250-268): bail out without touching anything
when there is nothing more or a fetch is in flight; otherwise issue one
listing request for `currentPage + 1` and, on a successful response, one
image request per returned record.  A non-success status is ignored; a
rejection is reported via the intercepted `console.log`.  No pagination
field, record list or DOM element is written. -/
def preloadNextPage (st : OptState) (resp : FetchResult) : OptState :=
  if st.hasMore = false ∨ st.isLoading then st
  else
    match resp with
    | .ok phs _ => { st with netRequests := st.netRequests + 1 + phs.length }
    | .httpError => { st with netRequests := st.netRequests + 1 }
    | .networkError =>
      { st with netRequests := st.netRequests + 1
                logger := consoleLog st.logger ("预加载失败: " ++ fetchErrorMessage .networkError) }

/-- The throttled scroll handler installed by `optimizeScroll`
(lines 296-312): when the page is scrolled to within 500px of the bottom
and `hasMore` holds with no fetch in flight, fetch `currentPage + 1` in
append mode. -/
def scrollHandler (st : OptState) (scrollTop windowHeight documentHeight : Int)
    (resp : FetchResult) : OptState :=
  if documentHeight - 500 ≤ scrollTop + windowHeight then
    if st.hasMore ∧ st.isLoading = false then
      loadPhotosPaginated st (st.currentPage + 1) true resp
    else st
  else st

/-- The "load more" affordance is visible: the button is in the document
with display on. -/
def loadMoreVisible (st : OptState) : Prop := st.loadMoreBtn = some true

/-- The loading affordance is hidden: the indicator is absent from the
document or its display is off. -/
def loadingHidden (st : OptState) : Prop := st.indicator ≠ some true

/-! ## Lazy-load watcher (spec §4.3)

Per-placeholder lifecycle implemented by `initLazyLoad` (observer callback,
lines 23-31) and `loadImage` (lines 48-66).  The labels follow the spec's
state machine; each corresponds to observable element attributes: `watched`
= placeholder unchanged, `loading` = a preloading `Image` is in flight,
`loaded` = the deferred source has been swapped in with the `loaded` class,
`failed` = the inline fallback graphic was substituted. -/

/-- Lifecycle position of one lazily loaded placeholder image. -/
inductive LazyState
  | watched
  | loading
  | loaded
  | failed
deriving DecidableEq, Repr

/-- The literal inline fallback graphic substituted by `loadImage`'s
`onerror` handler (line 62). -/
def fallbackSrc : String :=
  "data:image/svg+xml,<svg xmlns=\"http://www.w3.org/2000/svg\" width=\"200\" height=\"200\"><text y=\"50%\" x=\"50%\" dominant-baseline=\"middle\" text-anchor=\"middle\" fill=\"#999\">加载失败</text></svg>"

/-- One placeholder `img` as the watcher sees it: its deferred-source
attribute (`data-src` or `data-lazy`, already coalesced), its visible
`src`, whether the detector currently observes it, its lifecycle state, and
how many preloading fetches have ever been started for it. -/
structure LazyImg where
  id : Nat
  dataSrc : Option String
  src : Option String
  loadedClass : Bool
  observed : Bool
  state : LazyState
  loadsStarted : Nat
deriving DecidableEq, Repr

/-- A freshly rendered and registered placeholder with deferred source `s`:
observed by the detector, nothing loaded yet. -/
def watchedImg (i : Nat) (s : String) : LazyImg :=
  { id := i, dataSrc := some s, src := none, loadedClass := false
    observed := true, state := .watched, loadsStarted := 0 }

/-- Events that can reach one placeholder: the detector reports it within
the margin, or the preloading image fetch completes (successfully or not). -/
inductive LazyEvent
  | intersect
  | fetchDone (ok : Bool)
deriving DecidableEq, Repr

/-- One event against one placeholder.  `intersect` only fires while the
element is observed; the callback calls `loadImage` (which bails out when
no deferred source is set, and otherwise starts the preloading fetch) and
then unconditionally unobserves the element (lines 25-29, 48-66).
`fetchDone ok` is `tempImg.onload` / `tempImg.onerror`: the former swaps
the deferred source in, adds the `loaded` class and fades in; the latter
substitutes the literal fallback graphic. -/
def lazyStep (q : LazyImg) (e : LazyEvent) : LazyImg :=
  match e with
  | .intersect =>
    if q.observed then
      let q1 := match q.dataSrc with
        | none => q
        | some _ => { q with state := .loading, loadsStarted := q.loadsStarted + 1 }
      { q1 with observed := false }
    else q
  | .fetchDone ok =>
    match q.state with
    | .loading =>
      if ok then { q with state := .loaded, src := q.dataSrc, loadedClass := true }
      else { q with state := .failed, src := some fallbackSrc }
    | _ => q

/-- Run a sequence of events against one placeholder. -/
def lazyRun (q : LazyImg) : List LazyEvent → LazyImg
  | [] => q
  | e :: es => lazyRun (lazyStep q e) es

/-- The whole gallery page: the registered placeholders plus the
pagination/render state.  Image-load events never mention `opt`. -/
structure GallerySys where
  imgs : List LazyImg
  opt : OptState
deriving DecidableEq, Repr

/-- Deliver one lazy-load event to the placeholder with the given element
id; every other element of the page is untouched. -/
def imgEvent (sys : GallerySys) (i : Nat) (e : LazyEvent) : GallerySys :=
  { sys with imgs := sys.imgs.map fun q => if q.id = i then lazyStep q e else q }

/-! ## Derived notions and concrete states -/

/-- A sequence of successful page fetches, each one for `currentPage + 1`
in append mode — the shape produced by both the "load more" button's click
handler (line 211) and the scroll trigger (line 306). -/
def runAppendFetches (st : OptState) : List (List PhotoRecord × Bool) → OptState
  | [] => st
  | r :: rs =>
    runAppendFetches
      (loadPhotosPaginated st (st.currentPage + 1) true (FetchResult.ok r.1 r.2)) rs

/-- Ids of the photo elements currently in the container. -/
def wallIds (wall : List WallElem) : List String :=
  wall.filterMap fun e => match e with
    | .photoItem pe => some pe.id
    | .emptyState => none

/-- Number of `ERROR`-level entries in a log buffer. -/
def errorEntryCount (logs : List LogEntry) : Nat :=
  (logs.filter fun en => en.level == 3).length

/-- Reachability invariant of one placeholder started in the `watched`
state: while it is still observed nothing has been loaded, and at most one
preloading fetch is ever started. -/
def LazyInv (q : LazyImg) : Prop :=
  (q.observed = true → q.state = LazyState.watched ∧ q.loadsStarted = 0) ∧
  q.loadsStarted ≤ 1

/-- A state whose fetch mutex is held: used to exercise the no-op guard. -/
def loadingState : OptState := { initialOptState with isLoading := true }

/-- A state that has exhausted the listing: used to exercise the
`hasMore = false` guards. -/
def noMoreState : OptState := { initialOptState with hasMore := false }

/-- Sample image record for concrete runs. -/
def samplePhoto : PhotoRecord :=
  { id := "p1", type := "image", message := some "hi", date := "2024-01-01" }

/-- Sample video record for concrete runs. -/
def samplePhoto2 : PhotoRecord :=
  { id := "p2", type := "video", message := none, date := "2024-01-02" }

/-- Two successful pages: the first with more to come, the second final. -/
def sampleRs : List (List PhotoRecord × Bool) :=
  [([samplePhoto], true), ([samplePhoto2], false)]

/-- A state with one rendered photo element. -/
def renderedState : OptState :=
  renderPhotosOptimized initialOptState [samplePhoto] false

/-- A state whose `loadedPhotos` set already holds the id of `samplePhoto`:
the renderer inserts the element anyway. -/
def dupState : OptState := { initialOptState with loadedPhotos := ["p1"] }

/-- A placeholder mid-load, for the concrete run. -/
def loadingImg0 : LazyImg :=
  { id := 0, dataSrc := some "t0", src := none, loadedClass := false
    observed := false, state := LazyState.loading, loadsStarted := 1 }

/-- A two-placeholder page: one mid-load, one still watched. -/
def sysW : GallerySys :=
  { imgs := [loadingImg0, watchedImg 1 "t1"], opt := initialOptState }

/-! ## Helper lemmas -/

theorem hideLoadingIndicator_hidden (st : OptState) :
    loadingHidden (hideLoadingIndicator st) := by
  unfold loadingHidden hideLoadingIndicator
  cases st.indicator <;> simp

theorem loadPhotosPaginated_loadedPhotos
    (st : OptState) (page : Nat) (append : Bool) (resp : FetchResult) :
    (loadPhotosPaginated st page append resp).loadedPhotos = st.loadedPhotos := by
  by_cases hl : st.isLoading
  · simp [loadPhotosPaginated, hl]
  · cases resp <;>
      simp [loadPhotosPaginated, hl, showLoadingIndicator, updateLoadMoreButton,
        renderPhotosOptimized, hideLoadingIndicator] <;>
      split_ifs <;> simp

theorem loadPhotosPaginated_wallPresent
    (st : OptState) (page : Nat) (append : Bool) (resp : FetchResult) :
    (loadPhotosPaginated st page append resp).wallPresent = st.wallPresent := by
  by_cases hl : st.isLoading
  · simp [loadPhotosPaginated, hl]
  · cases resp <;>
      simp [loadPhotosPaginated, hl, showLoadingIndicator, updateLoadMoreButton,
        renderPhotosOptimized, hideLoadingIndicator] <;>
      split_ifs <;> simp

theorem loadPhotosPaginated_isLoading
    (st : OptState) (page : Nat) (append : Bool) (resp : FetchResult) :
    (loadPhotosPaginated st page append resp).isLoading = st.isLoading := by
  by_cases hl : st.isLoading
  · simp [loadPhotosPaginated, hl]
  · cases resp <;>
      simp [loadPhotosPaginated, hl, showLoadingIndicator, updateLoadMoreButton,
        renderPhotosOptimized, hideLoadingIndicator]

/-! ## Claims about the pagination fetch controller -/

/-- C1: while `isLoading` is true, `loadPhotosPaginated` is a no-op — zero
network calls, and `currentPage`, `hasMore`, `isLoading`, the `photos`
list and the rendered output (indeed the whole state) are unchanged. -/
theorem fetch_noop_while_loading
    (st : OptState) (page : Nat) (append : Bool) (resp : FetchResult)
    (h : st.isLoading = true) :
    (loadPhotosPaginated st page append resp).netRequests = st.netRequests ∧
    (loadPhotosPaginated st page append resp).currentPage = st.currentPage ∧
    (loadPhotosPaginated st page append resp).hasMore = st.hasMore ∧
    (loadPhotosPaginated st page append resp).isLoading = st.isLoading ∧
    (loadPhotosPaginated st page append resp).photos = st.photos ∧
    (loadPhotosPaginated st page append resp).wall = st.wall ∧
    loadPhotosPaginated st page append resp = st := by
  simp [loadPhotosPaginated, h]

theorem fetch_noop_while_loading_witness :
    loadingState.isLoading = true ∧
    loadPhotosPaginated loadingState 2 true FetchResult.httpError = loadingState :=
  ⟨rfl, (fetch_noop_while_loading loadingState 2 true FetchResult.httpError rfl).2.2.2.2.2.2⟩

/-- C2: an invocation that actually starts a fetch (`isLoading` was false)
leaves `hasMore` and `currentPage` unchanged when the fetch fails with a
network error or a non-success status, and on every exit path — success or
failure — `isLoading` is reset to false and the loading affordance is
hidden. -/
theorem fetch_failure_frame_and_cleanup
    (st : OptState) (page : Nat) (append : Bool) (resp : FetchResult)
    (h : st.isLoading = false) :
    ((resp = FetchResult.networkError ∨ resp = FetchResult.httpError) →
      (loadPhotosPaginated st page append resp).hasMore = st.hasMore ∧
      (loadPhotosPaginated st page append resp).currentPage = st.currentPage) ∧
    (loadPhotosPaginated st page append resp).isLoading = false ∧
    loadingHidden (loadPhotosPaginated st page append resp) := by
  refine ⟨?_, ?_, ?_⟩
  · rintro (rfl | rfl) <;>
      simp [loadPhotosPaginated, h, hideLoadingIndicator, showLoadingIndicator]
  · cases resp <;> simp [loadPhotosPaginated, h, hideLoadingIndicator]
  · cases resp <;> · simp only [loadPhotosPaginated, h, Bool.false_eq_true, if_false]
                     exact hideLoadingIndicator_hidden _

theorem fetch_failure_frame_and_cleanup_witness :
    initialOptState.isLoading = false ∧
    ((loadPhotosPaginated initialOptState 1 false FetchResult.networkError).hasMore =
        initialOptState.hasMore ∧
      (loadPhotosPaginated initialOptState 1 false FetchResult.networkError).currentPage =
        initialOptState.currentPage) ∧
    (loadPhotosPaginated initialOptState 1 false FetchResult.networkError).isLoading = false ∧
    loadingHidden (loadPhotosPaginated initialOptState 1 false FetchResult.networkError) := by
  have h := fetch_failure_frame_and_cleanup initialOptState 1 false FetchResult.networkError rfl
  exact ⟨rfl, h.1 (Or.inl rfl), h.2⟩

/-- C10: `preloadNextPage` never advances pagination — `currentPage`,
`hasMore`, `isLoading`, the `photos` list and the rendered output are
unchanged for every response, and when `hasMore` is false or `isLoading`
is true it issues no request at all (the state is returned untouched). -/
theorem preload_never_advances_pagination (st : OptState) (resp : FetchResult) :
    (preloadNextPage st resp).currentPage = st.currentPage ∧
    (preloadNextPage st resp).hasMore = st.hasMore ∧
    (preloadNextPage st resp).isLoading = st.isLoading ∧
    (preloadNextPage st resp).photos = st.photos ∧
    (preloadNextPage st resp).wall = st.wall ∧
    (preloadNextPage st resp).indicator = st.indicator ∧
    (preloadNextPage st resp).loadMoreBtn = st.loadMoreBtn ∧
    ((st.hasMore = false ∨ st.isLoading = true) →
      preloadNextPage st resp = st) := by
  unfold preloadNextPage
  by_cases hg : st.hasMore = false ∨ st.isLoading = true
  · rw [if_pos]
    · simp
    · rcases hg with hg | hg <;> simp [hg]
  · rw [if_neg]
    · cases resp <;> simp [hg]
    · rcases not_or.mp hg with ⟨h1, h2⟩
      simp [h1, h2]

theorem preload_never_advances_pagination_witness :
    preloadNextPage noMoreState FetchResult.networkError = noMoreState :=
  (preload_never_advances_pagination noMoreState FetchResult.networkError).2.2.2.2.2.2.2
    (Or.inl rfl)

/-! ## The "load more" visibility sequence (C3) -/

theorem loadPhotosPaginated_success_append
    (st : OptState) (page : Nat) (phs : List PhotoRecord) (hm : Bool)
    (h : st.isLoading = false) (hw : st.wallPresent = true) :
    (loadPhotosPaginated st page true (FetchResult.ok phs hm)).hasMore = hm ∧
    (loadMoreVisible (loadPhotosPaginated st page true (FetchResult.ok phs hm)) ↔
      hm = true) := by
  cases hm <;> cases hb : st.loadMoreBtn <;>
    simp [loadPhotosPaginated, h, hw, hb, showLoadingIndicator,
      updateLoadMoreButton, renderPhotosOptimized, hideLoadingIndicator,
      loadMoreVisible]

theorem runAppendFetches_append (st : OptState)
    (l1 l2 : List (List PhotoRecord × Bool)) :
    runAppendFetches st (l1 ++ l2) = runAppendFetches (runAppendFetches st l1) l2 := by
  induction l1 generalizing st with
  | nil => rfl
  | cons r t ih => simp [runAppendFetches, ih]

theorem runAppendFetches_inv (st : OptState) (rs : List (List PhotoRecord × Bool))
    (h : st.isLoading = false) (hw : st.wallPresent = true) :
    (runAppendFetches st rs).isLoading = false ∧
    (runAppendFetches st rs).wallPresent = true := by
  induction rs generalizing st with
  | nil => exact ⟨h, hw⟩
  | cons r t ih =>
    simp only [runAppendFetches]
    exact ih _ (by rw [loadPhotosPaginated_isLoading]; exact h)
      (by rw [loadPhotosPaginated_wallPresent]; exact hw)

theorem runAppendFetches_last (st : OptState)
    (l : List (List PhotoRecord × Bool)) (r : List PhotoRecord × Bool)
    (h : st.isLoading = false) (hw : st.wallPresent = true) :
    (runAppendFetches st (l ++ [r])).hasMore = r.2 ∧
    (loadMoreVisible (runAppendFetches st (l ++ [r])) ↔ r.2 = true) := by
  rw [runAppendFetches_append]
  obtain ⟨hi, hwi⟩ := runAppendFetches_inv st l h hw
  simpa [runAppendFetches] using
    loadPhotosPaginated_success_append (runAppendFetches st l)
      ((runAppendFetches st l).currentPage + 1) r.1 r.2 hi hwi

/-- C3: over any sequence of successful append-mode page fetches whose
responses all carry `has_more = true` except the last, which carries
`has_more = false`: the "load more" affordance is visible after every fetch
but the last and hidden after the last; the final `hasMore` is false, so no
scroll-bottom event changes the state or issues a fetch any more; and in
general the scroll handler invokes the fetch controller for
`currentPage + 1` in append mode exactly when the page is near the bottom,
`hasMore` is true and `isLoading` is false. -/
theorem load_more_visibility_sequence
    (st : OptState) (rs : List (List PhotoRecord × Bool))
    (h : st.isLoading = false) (hw : st.wallPresent = true) (hne : rs ≠ [])
    (hmid : ∀ (i : Nat) (r : List PhotoRecord × Bool),
      i + 1 < rs.length → rs[i]? = some r → r.2 = true)
    (hlast : ∀ r : List PhotoRecord × Bool, rs.getLast? = some r → r.2 = false) :
    (∀ i : Nat, i + 1 < rs.length →
      loadMoreVisible (runAppendFetches st (rs.take (i + 1)))) ∧
    ¬ loadMoreVisible (runAppendFetches st rs) ∧
    (runAppendFetches st rs).hasMore = false ∧
    (∀ (sTop wH dH : Int) (resp : FetchResult),
      scrollHandler (runAppendFetches st rs) sTop wH dH resp =
        runAppendFetches st rs) ∧
    (∀ (s : OptState) (sTop wH dH : Int) (resp : FetchResult),
      (s.hasMore = true ∧ s.isLoading = false ∧ dH - 500 ≤ sTop + wH →
        scrollHandler s sTop wH dH resp =
          loadPhotosPaginated s (s.currentPage + 1) true resp) ∧
      (s.hasMore = false ∨ s.isLoading = true ∨ ¬ (dH - 500 ≤ sTop + wH) →
        scrollHandler s sTop wH dH resp = s)) := by
  have hsplit : rs.dropLast ++ [rs.getLast hne] = rs :=
    List.dropLast_append_getLast hne
  have hlastv : (rs.getLast hne).2 = false :=
    hlast _ (List.getLast?_eq_getLast rs hne ▸ rfl)
  have hfin := runAppendFetches_last st rs.dropLast (rs.getLast hne) h hw
  rw [hsplit] at hfin
  refine ⟨?_, ?_, ?_, ?_, ?_⟩
  · intro i hi
    cases hr : rs[i]? with
    | none =>
      have := List.getElem?_eq_none_iff.mp hr
      omega
    | some r =>
      have htake : rs.take (i + 1) = rs.take i ++ [r] := by
        rw [List.take_succ, hr]; rfl
      rw [htake]
      exact (runAppendFetches_last st (rs.take i) r h hw).2.mpr
        (hmid i r hi hr)
  · rw [hfin.2, hlastv]; simp
  · rw [hfin.1, hlastv]
  · intro sTop wH dH resp
    have hm0 : (runAppendFetches st rs).hasMore = false := by rw [hfin.1, hlastv]
    unfold scrollHandler
    split_ifs with h1 h2
    · rw [hm0] at h2; simp at h2
    · rfl
    · rfl
  · intro s sTop wH dH resp
    constructor
    · rintro ⟨hm1, hl1, hnb⟩
      unfold scrollHandler
      rw [if_pos hnb, if_pos ⟨hm1, hl1⟩]
    · intro hcond
      unfold scrollHandler
      split_ifs with h1 h2
      · rcases hcond with hc | hc | hc
        · rw [hc] at h2; simp at h2
        · rw [hc] at h2; simp at h2
        · exact absurd h1 hc
      · rfl
      · rfl

theorem load_more_visibility_sequence_witness :
    loadMoreVisible (runAppendFetches initialOptState (sampleRs.take 1)) ∧
    ¬ loadMoreVisible (runAppendFetches initialOptState sampleRs) := by
  have hmid : ∀ (i : Nat) (r : List PhotoRecord × Bool),
      i + 1 < sampleRs.length → sampleRs[i]? = some r → r.2 = true := by
    intro i r hi hr
    have hl2 : sampleRs.length = 2 := rfl
    have hi0 : i = 0 := by omega
    subst hi0
    have hx : sampleRs[0]? = some ([samplePhoto], true) := rfl
    rw [hx] at hr
    rw [(Option.some_inj.mp hr).symm]
  have hlast : ∀ r : List PhotoRecord × Bool,
      sampleRs.getLast? = some r → r.2 = false := by
    intro r hr
    have hx : sampleRs.getLast? = some ([samplePhoto2], false) := rfl
    rw [hx] at hr
    rw [(Option.some_inj.mp hr).symm]
  have hth := load_more_visibility_sequence initialOptState sampleRs rfl rfl
    (by simp [sampleRs]) hmid hlast
  exact ⟨hth.1 0 (by decide), hth.2.1⟩

/-! ## Claims about the render stage -/

theorem render_append_wall (st : OptState) (l : List PhotoRecord)
    (h : st.wallPresent = true) :
    (renderPhotosOptimized st l true).wall =
      st.wall ++ l.map (fun p => WallElem.photoItem (createPhotoItem p)) := by
  simp [renderPhotosOptimized, h]

theorem photoCount_append (a b : List WallElem) :
    photoCount (a ++ b) = photoCount a + photoCount b := by
  simp [photoCount]

theorem photoCount_map_items (l : List PhotoRecord) :
    photoCount (l.map fun p => WallElem.photoItem (createPhotoItem p)) = l.length := by
  induction l with
  | nil => rfl
  | cons p t ih => simpa [photoCount, List.filter] using ih

/-- C5: with the container mounted, rendering in append mode removes no
previously rendered element (membership and multiplicity are preserved) and
the photo-element count grows by exactly the number of input records. -/
theorem render_append_preserves_and_counts
    (st : OptState) (l : List PhotoRecord) (h : st.wallPresent = true) :
    (∀ e : WallElem, e ∈ st.wall → e ∈ (renderPhotosOptimized st l true).wall) ∧
    (∀ e : WallElem,
      st.wall.count e ≤ (renderPhotosOptimized st l true).wall.count e) ∧
    photoCount (renderPhotosOptimized st l true).wall =
      photoCount st.wall + l.length := by
  rw [render_append_wall st l h]
  refine ⟨fun e he => List.mem_append.mpr (Or.inl he), fun e => ?_, ?_⟩
  · rw [List.count_append]
    exact Nat.le_add_right _ _
  · rw [photoCount_append, photoCount_map_items]

theorem render_append_preserves_and_counts_witness :
    renderedState.wallPresent = true ∧
    photoCount (renderPhotosOptimized renderedState [samplePhoto2] true).wall =
      photoCount renderedState.wall + [samplePhoto2].length :=
  ⟨rfl, (render_append_preserves_and_counts renderedState [samplePhoto2] rfl).2.2⟩

/-- C6: with the container mounted, rendering an empty record list with
`appendMode = false` leaves exactly the empty-state placeholder in the
container and zero photo elements. -/
theorem render_empty_replace_shows_empty_state
    (st : OptState) (h : st.wallPresent = true) :
    (renderPhotosOptimized st [] false).wall = [WallElem.emptyState] ∧
    photoCount (renderPhotosOptimized st [] false).wall = 0 := by
  simp [renderPhotosOptimized, h, photoCount]

theorem render_empty_replace_shows_empty_state_witness :
    initialOptState.wallPresent = true ∧
    ((renderPhotosOptimized initialOptState [] false).wall = [WallElem.emptyState] ∧
      photoCount (renderPhotosOptimized initialOptState [] false).wall = 0) :=
  ⟨rfl, render_empty_replace_shows_empty_state initialOptState rfl⟩

/-- C9 counterexample: after one concrete render, `loadedPhotos` is still
empty while one photo element with id `"p1"` is rendered — so `loadedPhotos`
does not track the rendered ids; and rendering a record whose id is already
in `loadedPhotos` still inserts an element — so the set is not consulted
before insertion. -/
theorem loadedPhotos_claim_counterexample :
    (renderPhotosOptimized initialOptState [samplePhoto] false).loadedPhotos = [] ∧
    wallIds (renderPhotosOptimized initialOptState [samplePhoto] false).wall = ["p1"] ∧
    (renderPhotosOptimized initialOptState [samplePhoto] false).loadedPhotos ≠
      wallIds (renderPhotosOptimized initialOptState [samplePhoto] false).wall ∧
    "p1" ∈ dupState.loadedPhotos ∧
    photoCount (renderPhotosOptimized dupState [samplePhoto] true).wall =
      photoCount dupState.wall + 1 := by
  refine ⟨rfl, rfl, ?_, List.mem_cons_self _ _, rfl⟩
  simp [renderPhotosOptimized, wallIds, initialOptState, createPhotoItem,
    samplePhoto]

/-- C9 amended: `loadedPhotos` is declared (initialized empty) but never
consulted or updated — every pipeline operation leaves it unchanged, and
with the container mounted the renderer inserts one element per input
record regardless of what `loadedPhotos` contains. -/
theorem loadedPhotos_never_consulted_or_updated
    (st : OptState) (l : List PhotoRecord) (append : Bool) (page : Nat)
    (resp : FetchResult) :
    (renderPhotosOptimized st l append).loadedPhotos = st.loadedPhotos ∧
    (loadPhotosPaginated st page append resp).loadedPhotos = st.loadedPhotos ∧
    (preloadNextPage st resp).loadedPhotos = st.loadedPhotos ∧
    (updateLoadMoreButton st).loadedPhotos = st.loadedPhotos ∧
    (st.wallPresent = true →
      photoCount (renderPhotosOptimized st l true).wall =
        photoCount st.wall + l.length) := by
  refine ⟨?_, loadPhotosPaginated_loadedPhotos st page append resp, ?_, rfl, ?_⟩
  · unfold renderPhotosOptimized
    split_ifs <;> rfl
  · unfold preloadNextPage
    split_ifs with hg
    · rfl
    · cases resp <;> rfl
  · intro h
    rw [render_append_wall st l h, photoCount_append, photoCount_map_items]

/-! ## Error logging on a non-success listing response (C8) -/

theorem addLog_no_trim (lg : LoggerState) (lv : Nat) (c msg : String)
    (h : lg.logs.length + 1 ≤ lg.maxLogs) :
    Logger.addLog lg lv c msg = { lg with logs := lg.logs ++ [⟨lv, c, msg⟩] } := by
  have hlt : ¬ (lg.maxLogs < lg.logs.length + 1) := by omega
  simp [Logger.addLog, hlt]

theorem logger_error_appends (lg : LoggerState) (msg c : String)
    (hlv : lg.currentLevel ≤ 3) (hcap : lg.logs.length + 1 ≤ lg.maxLogs) :
    Logger.error lg msg c = { lg with logs := lg.logs ++ [⟨3, c, msg⟩] } := by
  unfold Logger.error
  rw [if_pos hlv]
  exact addLog_no_trim lg 3 c msg hcap

theorem logger_error_twice (lg : LoggerState) (m1 m2 c1 c2 : String)
    (hlv : lg.currentLevel ≤ 3) (hcap : lg.logs.length + 2 ≤ lg.maxLogs) :
    Logger.error (Logger.error lg m1 c1) m2 c2 =
      { lg with logs := lg.logs ++ [⟨3, c1, m1⟩, ⟨3, c2, m2⟩] } := by
  rw [logger_error_appends lg m1 c1 hlv (by omega)]
  rw [logger_error_appends { lg with logs := lg.logs ++ [⟨3, c1, m1⟩] } m2 c2 hlv
    (by simp only [List.length_append, List.length_cons, List.length_nil]; omega)]
  simp

theorem errorEntryCount_append (a b : List LogEntry) :
    errorEntryCount (a ++ b) = errorEntryCount a + errorEntryCount b := by
  simp [errorEntryCount]

/-- C8 counterexample: one concrete non-success listing fetch from the
initial state produces TWO error entries in the logging collaborator, not
one — the intercepted `console.error` in the catch block forwards to
`logger.error`, and `logger.error` is then called directly as well. -/
theorem one_error_logged_counterexample :
    errorEntryCount initialOptState.logger.logs = 0 ∧
    errorEntryCount
      (loadPhotosPaginated initialOptState 1 false FetchResult.httpError).logger.logs = 2 ∧
    errorEntryCount
        (loadPhotosPaginated initialOptState 1 false FetchResult.httpError).logger.logs ≠
      1 := by
  refine ⟨rfl, ?_, ?_⟩ <;> decide

/-- C8 amended: when a listing fetch returns a non-success response status
(fetch started, log level permits errors, buffer not at capacity), zero
photo elements are rendered (the container content is unchanged),
`isLoading` returns to false, the loading indicator is hidden, and exactly
TWO errors are logged through the logging collaborator — one via the
intercepted `console.error` (default category) and one via the direct
`logger.error` call (category `PERFORMANCE`). -/
theorem http_error_two_errors_logged
    (st : OptState) (page : Nat) (append : Bool)
    (h : st.isLoading = false) (hlv : st.logger.currentLevel ≤ 3)
    (hcap : st.logger.logs.length + 2 ≤ st.logger.maxLogs) :
    (loadPhotosPaginated st page append FetchResult.httpError).logger.logs =
      st.logger.logs ++
        [⟨3, "ERROR", "分页加载失败: " ++ fetchErrorMessage FetchResult.httpError⟩,
         ⟨3, "PERFORMANCE", "分页加载失败: " ++ fetchErrorMessage FetchResult.httpError⟩] ∧
    errorEntryCount (loadPhotosPaginated st page append FetchResult.httpError).logger.logs =
      errorEntryCount st.logger.logs + 2 ∧
    (loadPhotosPaginated st page append FetchResult.httpError).wall = st.wall ∧
    (loadPhotosPaginated st page append FetchResult.httpError).isLoading = false ∧
    loadingHidden (loadPhotosPaginated st page append FetchResult.httpError) := by
  have hL2 : Logger.error
      (consoleError st.logger
        ("分页加载失败: " ++ fetchErrorMessage FetchResult.httpError))
      ("分页加载失败: " ++ fetchErrorMessage FetchResult.httpError) "PERFORMANCE" =
      { st.logger with logs := st.logger.logs ++
          [⟨3, "ERROR", "分页加载失败: " ++ fetchErrorMessage FetchResult.httpError⟩,
           ⟨3, "PERFORMANCE", "分页加载失败: " ++ fetchErrorMessage FetchResult.httpError⟩] } := by
    unfold consoleError
    exact logger_error_twice st.logger _ _ _ _ hlv hcap
  have hlogs : (loadPhotosPaginated st page append FetchResult.httpError).logger.logs =
      st.logger.logs ++
        [⟨3, "ERROR", "分页加载失败: " ++ fetchErrorMessage FetchResult.httpError⟩,
         ⟨3, "PERFORMANCE", "分页加载失败: " ++ fetchErrorMessage FetchResult.httpError⟩] := by
    simp only [loadPhotosPaginated, h, Bool.false_eq_true, if_false,
      showLoadingIndicator, hideLoadingIndicator]
    rw [hL2]
  refine ⟨hlogs, ?_, ?_, ?_, ?_⟩
  · rw [hlogs, errorEntryCount_append]
    rfl
  · simp [loadPhotosPaginated, h, showLoadingIndicator, hideLoadingIndicator]
  · simp [loadPhotosPaginated, h, showLoadingIndicator, hideLoadingIndicator]
  · simp only [loadPhotosPaginated, h, Bool.false_eq_true, if_false]
    exact hideLoadingIndicator_hidden _

theorem http_error_two_errors_logged_witness :
    initialOptState.isLoading = false ∧
    errorEntryCount
      (loadPhotosPaginated initialOptState 3 true FetchResult.httpError).logger.logs =
      errorEntryCount initialOptState.logger.logs + 2 := by
  have h := http_error_two_errors_logged initialOptState 3 true rfl
    (by decide) (by decide)
  exact ⟨rfl, h.2.1⟩

/-! ## Claims about the lazy-load watcher -/

theorem lazyStep_no_return_to_watched (q : LazyImg) (e : LazyEvent) :
    (lazyStep q e).state = LazyState.watched → q.state = LazyState.watched := by
  intro h
  cases e with
  | intersect =>
    by_cases ho : q.observed
    · cases hd : q.dataSrc with
      | none => simpa [lazyStep, ho, hd] using h
      | some v => simp [lazyStep, ho, hd] at h
    · simpa [lazyStep, ho] using h
  | fetchDone ok =>
    cases hs : q.state with
    | watched => rfl
    | loading => cases ok <;> simp [lazyStep, hs] at h
    | loaded => simp [lazyStep, hs] at h
    | failed => simp [lazyStep, hs] at h

theorem lazyStep_inv (q : LazyImg) (e : LazyEvent) (h : LazyInv q) :
    LazyInv (lazyStep q e) := by
  obtain ⟨h1, h2⟩ := h
  cases e with
  | intersect =>
    by_cases ho : q.observed
    · obtain ⟨hs, hl⟩ := h1 ho
      cases hd : q.dataSrc <;>
        simp [lazyStep, LazyInv, ho, hd, hl]
    · simp only [lazyStep, if_neg ho]
      exact ⟨h1, h2⟩
  | fetchDone ok =>
    by_cases hst : q.state = LazyState.loading
    · have ho : q.observed = false := by
        cases hob : q.observed
        · rfl
        · have hw := (h1 hob).1
          rw [hw] at hst
          exact absurd hst (by simp)
      cases ok <;> simp [lazyStep, LazyInv, hst, ho, h2]
    · have hq : lazyStep q (LazyEvent.fetchDone ok) = q := by
        cases hs : q.state <;>
          first
          | exact absurd hs hst
          | simp [lazyStep, hs]
      rw [hq]
      exact ⟨h1, h2⟩

theorem lazyRun_inv (q : LazyImg) (es : List LazyEvent) (h : LazyInv q) :
    LazyInv (lazyRun q es) := by
  induction es generalizing q with
  | nil => exact h
  | cons e t ih => exact ih _ (lazyStep_inv q e h)

theorem lazyStep_terminal (q : LazyImg) (e : LazyEvent)
    (hobs : q.observed = false)
    (hs : q.state = LazyState.loaded ∨ q.state = LazyState.failed) :
    lazyStep q e = q := by
  cases e with
  | intersect => simp [lazyStep, hobs]
  | fetchDone ok => rcases hs with hs | hs <;> simp [lazyStep, hs]

/-- C4: starting from a watched placeholder (with a deferred source, as
every rendered image placeholder has), the first viewport-proximity
notification starts the image load and immediately unregisters the element;
along every event sequence at most one load is ever started; the `loaded`
and `failed` states are terminal under every further event; and no step of
the machine ever returns any placeholder to `watched`. -/
theorem lazy_load_fires_once_and_terminal (i : Nat) (s : String)
    (es : List LazyEvent) :
    (lazyStep (watchedImg i s) LazyEvent.intersect).state = LazyState.loading ∧
    (lazyStep (watchedImg i s) LazyEvent.intersect).observed = false ∧
    (lazyStep (watchedImg i s) LazyEvent.intersect).loadsStarted = 1 ∧
    (lazyRun (watchedImg i s) es).loadsStarted ≤ 1 ∧
    ((lazyRun (watchedImg i s) es).state = LazyState.loaded ∨
        (lazyRun (watchedImg i s) es).state = LazyState.failed →
      ∀ e : LazyEvent,
        lazyStep (lazyRun (watchedImg i s) es) e = lazyRun (watchedImg i s) es) ∧
    (∀ e : LazyEvent,
      (lazyStep (lazyRun (watchedImg i s) es) e).state = LazyState.watched →
      (lazyRun (watchedImg i s) es).state = LazyState.watched) := by
  have hinv : LazyInv (lazyRun (watchedImg i s) es) :=
    lazyRun_inv _ es ⟨fun _ => ⟨rfl, rfl⟩, by simp [watchedImg]⟩
  refine ⟨rfl, rfl, rfl, hinv.2, ?_, fun e => lazyStep_no_return_to_watched _ e⟩
  intro hs e
  apply lazyStep_terminal _ _ ?_ hs
  cases hob : (lazyRun (watchedImg i s) es).observed
  · rfl
  · obtain ⟨hw, _⟩ := hinv.1 hob
    rcases hs with hs | hs <;> rw [hs] at hw <;> exact absurd hw (by simp)

theorem lazy_load_fires_once_and_terminal_witness :
    (lazyRun (watchedImg 0 "t") [LazyEvent.intersect, LazyEvent.fetchDone false]).loadsStarted ≤ 1 ∧
    lazyStep (lazyRun (watchedImg 0 "t") [LazyEvent.intersect, LazyEvent.fetchDone false])
        LazyEvent.intersect =
      lazyRun (watchedImg 0 "t") [LazyEvent.intersect, LazyEvent.fetchDone false] := by
  have h := lazy_load_fires_once_and_terminal 0 "t"
    [LazyEvent.intersect, LazyEvent.fetchDone false]
  exact ⟨h.2.2.2.1, h.2.2.2.2.1 (Or.inr rfl) LazyEvent.intersect⟩

/-- C7: for a loading placeholder (already unobserved, as every loading
placeholder is) whose deferred image fetch errors: its source is replaced
by the literal inline fallback graphic and it enters the terminal `failed`
state; every sibling placeholder keeps its exact state and source; the
pagination state is untouched; and no later event ever changes the failed
placeholder again (no retry). -/
theorem image_error_fallback_isolated
    (sys : GallerySys) (k : Nat) (q : LazyImg)
    (hq : sys.imgs[k]? = some q)
    (hload : q.state = LazyState.loading)
    (hobs : q.observed = false)
    (hdist : ∀ (j : Nat) (r : LazyImg), sys.imgs[j]? = some r → r.id = q.id → j = k) :
    (imgEvent sys q.id (LazyEvent.fetchDone false)).imgs[k]? =
      some { q with state := LazyState.failed, src := some fallbackSrc } ∧
    (∀ (j : Nat) (r : LazyImg), j ≠ k → sys.imgs[j]? = some r →
      (imgEvent sys q.id (LazyEvent.fetchDone false)).imgs[j]? = some r) ∧
    (imgEvent sys q.id (LazyEvent.fetchDone false)).opt = sys.opt ∧
    (∀ e : LazyEvent,
      imgEvent (imgEvent sys q.id (LazyEvent.fetchDone false)) q.id e =
        imgEvent sys q.id (LazyEvent.fetchDone false)) := by
  have hqfail : lazyStep q (LazyEvent.fetchDone false) =
      { q with state := LazyState.failed, src := some fallbackSrc } := by
    simp [lazyStep, hload]
  refine ⟨?_, ?_, rfl, ?_⟩
  · simp only [imgEvent, List.getElem?_map, hq, Option.map_some']
    rw [hqfail]
    simp
  · intro j r hj hr
    have hne : ¬ r.id = q.id := fun hid => hj (hdist j r hr hid)
    simp only [imgEvent, List.getElem?_map, hr, Option.map_some']
    rw [if_neg hne]
  · intro e
    simp only [imgEvent]
    congr 1
    apply List.ext_getElem?
    intro n
    simp only [List.getElem?_map]
    cases hn : sys.imgs[n]? with
    | none => rfl
    | some r =>
      simp only [Option.map_some']
      by_cases hid : r.id = q.id
      · have hnk : n = k := hdist n r hn hid
        subst hnk
        have hrq : r = q := by
          rw [hn] at hq
          exact Option.some_inj.mp hq
        subst hrq
        rw [if_pos hid, hqfail, if_pos hid]
        rw [lazyStep_terminal
          { r with state := LazyState.failed, src := some fallbackSrc } e hobs
          (Or.inr rfl)]
      · rw [if_neg hid, if_neg hid]

theorem image_error_fallback_isolated_witness :
    (imgEvent sysW loadingImg0.id (LazyEvent.fetchDone false)).imgs[0]? =
      some { loadingImg0 with state := LazyState.failed, src := some fallbackSrc } ∧
    (imgEvent sysW loadingImg0.id (LazyEvent.fetchDone false)).imgs[1]? =
      some (watchedImg 1 "t1") ∧
    (imgEvent sysW loadingImg0.id (LazyEvent.fetchDone false)).opt = sysW.opt := by
  have hdist : ∀ (j : Nat) (r : LazyImg),
      sysW.imgs[j]? = some r → r.id = loadingImg0.id → j = 0 := by
    intro j r hj hid
    match j with
    | 0 => rfl
    | 1 =>
      have hx : sysW.imgs[1]? = some (watchedImg 1 "t1") := rfl
      rw [hx] at hj
      rw [(Option.some_inj.mp hj).symm] at hid
      exact absurd hid (by decide)
    | j + 2 =>
      have hx : sysW.imgs[j + 2]? = none := rfl
      rw [hx] at hj
      exact Option.noConfusion hj
  have h := image_error_fallback_isolated sysW 0 loadingImg0 rfl rfl rfl hdist
  exact ⟨h.1, h.2.1 1 (watchedImg 1 "t1") (by decide) rfl, h.2.2.1⟩

theorem loadedPhotos_never_consulted_or_updated_witness :
    (renderPhotosOptimized dupState [samplePhoto] true).loadedPhotos =
      dupState.loadedPhotos ∧
    photoCount (renderPhotosOptimized dupState [samplePhoto] true).wall =
      photoCount dupState.wall + [samplePhoto].length :=
  ⟨(loadedPhotos_never_consulted_or_updated dupState [samplePhoto] true 1
      FetchResult.httpError).1,
   (loadedPhotos_never_consulted_or_updated dupState [samplePhoto] true 1
      FetchResult.httpError).2.2.2.2 rfl⟩
